import Mathlib

/-
Shallow embedding of the checkout/order/payment core of the ABFRL backend
(src/backend/checkout_service.py, src/backend/payment_gateway.py, data model
from src/backend/db.py).

Modelling conventions:
* Python decimal/float monetary arithmetic is embedded over ℚ; the source's
  decimal literals (0.10, 0.08875, 199.00, ...) are written as the exact
  fractions they denote (10/100, 8875/100000, 199, ...).
* The SQLAlchemy session is embedded by explicit state passing: each
  operation takes the committed store (a `DB`) and returns the committed
  store after the call.  Every mutation batch in the source ends in
  `db.commit()`; exceptions are raised before any mutation of the batch, so
  an operation that raises returns its input store unchanged (the caller's
  `db.rollback()` discards only uncommitted changes).
* Nondeterministic / environment inputs (random draws, generated ids,
  current date, injected storage or gateway faults) are supplied by an
  `Oracle` record, making every function a pure function of its inputs.
* Structures keep only the columns that the embedded code reads or writes
  (e.g. `User` keeps `id` and `loyalty_score`).
-/

set_option maxRecDepth 2000

namespace ABFRL

/-- payment_gateway.py PaymentStatus enum. -/
inductive PaymentStatus where
  | pending
  | success
  | failed
  | refunded
  | cancelled
  deriving DecidableEq, Repr

/-- The .value string of a PaymentStatus member. -/
def PaymentStatus.value : PaymentStatus → String
  | .pending => "pending"
  | .success => "success"
  | .failed => "failed"
  | .refunded => "refunded"
  | .cancelled => "cancelled"

/-- db.py User (columns read/written by the checkout core). -/
structure User where
  id : Nat
  loyalty_score : Int
  deriving DecidableEq, Repr

/-- db.py Product (columns read/written by the checkout core). -/
structure Product where
  id : Nat
  product_name : String
  price : ℚ
  stock : Int
  deriving DecidableEq, Repr

/-- db.py Cart row. -/
structure CartItem where
  id : Nat
  user_id : Nat
  product_id : Nat
  quantity : Int
  deriving DecidableEq, Repr

/-- db.py Order (columns read/written by the checkout core). -/
structure Order where
  id : Nat
  order_number : String
  user_id : Nat
  total_amount : ℚ
  tax_amount : ℚ
  shipping_amount : ℚ
  discount_amount : ℚ
  final_amount : ℚ
  payment_status : String
  payment_method : String
  transaction_id : Option String
  shipping_address : String
  billing_address : String
  order_status : String
  notes : Option String
  deriving DecidableEq, Repr

/-- db.py OrderItem. -/
structure OrderItem where
  order_id : Nat
  product_id : Nat
  product_name : String
  quantity : Int
  unit_price : ℚ
  total_price : ℚ
  deriving DecidableEq, Repr

/-- The committed relational store. -/
structure DB where
  users : List User
  products : List Product
  carts : List CartItem
  orders : List Order
  order_items : List OrderItem
  deriving DecidableEq, Repr

/-- Environment inputs of one request: generated identifiers, the random
draws of the simulated gateway, the current date used by card-expiry
validation, and injectable faults (storage failure during order creation,
exception thrown by the gateway call). -/
structure Oracle where
  orderNumber : String := "LUX-20260101-AAAAAAAA"
  txnId : String := "TXN-20260101-BBBBBBBB"
  payRand : ℚ := 0
  failIdx : Nat := 0
  refundRand : ℚ := 0
  gatewayRaises : Bool := false
  gatewayErrMsg : String := "gateway connection error"
  createRaises : Bool := false
  createErrMsg : String := "database error"
  nowYear : Int := 2026
  nowMonth : Int := 10
  deriving DecidableEq, Repr

/-- `Query(Product).filter(Product.id == pid).first()`. -/
def findProduct (ps : List Product) (pid : Nat) : Option Product :=
  ps.find? (fun p => p.id == pid)

/-- Stock of a product row, when the row exists. -/
def stockOf (ps : List Product) (pid : Nat) : Option Int :=
  (findProduct ps pid).map Product.stock

/-- Mutating `product.stock += delta` on the row returned by `.first()`:
updates the first row with the given id, leaves the list unchanged when no
row matches. -/
def updateStockFirst (pid : Nat) (delta : Int) : List Product → List Product
  | [] => []
  | p :: ps =>
    if p.id == pid then { p with stock := p.stock + delta } :: ps
    else p :: updateStockFirst pid delta ps

/-- Python `int(q)`: truncation toward zero. -/
def pyInt (q : ℚ) : Int :=
  if 0 ≤ q then q.floor else -(-q).floor

/-- Python `s.isdigit()` (ASCII digits; empty string is not a digit string). -/
def pyIsDigit (s : String) : Bool :=
  s.length > 0 && s.all Char.isDigit

/-  ----------------  payment_gateway.py  ----------------  -/

/-- Card details dict passed to the gateway; a `none` field is an absent
key.  Values are embedded as the strings `str(...)` turns them into. -/
structure CardDetails where
  card_number : Option String
  expiry_month : Option String
  expiry_year : Option String
  cvv : Option String
  deriving DecidableEq, Repr

/-- The `for field in required_fields: if field not in card_details` loop of
validate_card_details: first missing required key, in source order. -/
def missing_field (cd : CardDetails) : Option String :=
  if cd.card_number.isNone then some "card_number"
  else if cd.expiry_month.isNone then some "expiry_month"
  else if cd.expiry_year.isNone then some "expiry_year"
  else if cd.cvv.isNone then some "cvv"
  else none

/-- PaymentGateway.validate_card_details.  `nowYear`/`nowMonth` stand for
`datetime.now()`.  `int(...)` of a non-numeric string raises ValueError in
the source, caught as "Invalid expiry date format"; this is embedded via
`String.toInt?`. -/
def validate_card_details (cd : CardDetails) (nowYear nowMonth : Int) : Bool × String :=
  match missing_field cd with
  | some f => (false, "Missing required field: " ++ f)
  | none =>
    let card_number := cd.card_number.getD ""
    if pyIsDigit card_number = false ∨ card_number.length ≠ 16 then
      (false, "Invalid card number format")
    else
      match (cd.expiry_month.getD "").toInt?, (cd.expiry_year.getD "").toInt? with
      | some expiry_month, some expiry_year =>
        if ¬ (1 ≤ expiry_month ∧ expiry_month ≤ 12) then (false, "Invalid expiry month")
        else if expiry_year < nowYear ∨ (expiry_year = nowYear ∧ expiry_month < nowMonth) then
          (false, "Card has expired")
        else
          let cvv := cd.cvv.getD ""
          if pyIsDigit cvv = false ∨ ¬ (3 ≤ cvv.length ∧ cvv.length ≤ 4) then
            (false, "Invalid CVV format")
          else (true, "Card details valid")
      | _, _ => (false, "Invalid expiry date format")

/-- Keys of PaymentGateway.get_supported_payment_methods() (the dict's
values are display metadata — name, description, icon, currency list,
min/max amounts — none of which the embedded code paths read;
`payment_method in dict` tests key membership). -/
def supported_method_names : List String :=
  ["credit_card", "debit_card", "net_banking", "upi", "wallet"]

/-- The gateway's rates 0.85 / 0.10 / 0.05, as exact fractions. -/
def success_rate : ℚ := 85 / 100
def failure_rate : ℚ := 10 / 100
def timeout_rate : ℚ := 5 / 100

def failure_reasons : List String :=
  ["Insufficient funds", "Card declined by bank", "Invalid card details",
   "Security verification failed", "Bank system temporarily unavailable"]

/-- The outcome-selection tail of PaymentGateway.process_payment: the
transaction id is synthesized unconditionally, then `random.random()`
(here `g.payRand`) picks success / declined / timeout.  `random.choice`
over the failure reasons is embedded by the index `g.failIdx % 5`
(the `getD` default is unreachable since the list is nonempty). -/
def gateway_outcome (g : Oracle) : PaymentStatus × String × Option String :=
  if g.payRand < success_rate then
    (.success, "Payment successful", some g.txnId)
  else if g.payRand < success_rate + failure_rate then
    (.failed, failure_reasons.getD (g.failIdx % failure_reasons.length) "", some g.txnId)
  else
    (.failed, "Payment processing timeout", some g.txnId)

/-- The `if payment_method in ['credit_card','debit_card'] and card_details:`
validation step of PaymentGateway.process_payment: returns the failure
message when it fires, `none` when it is skipped (non-card method, or no
card details supplied) or passes. -/
def gateway_card_error (payment_method : String) (card_details : Option CardDetails)
    (g : Oracle) : Option String :=
  if payment_method = "credit_card" ∨ payment_method = "debit_card" then
    match card_details with
    | some cd =>
      match validate_card_details cd g.nowYear g.nowMonth with
      | (false, msg) => some msg
      | (true, _) => none
    | none => none
  else none

/-- PaymentGateway.process_payment. -/
def gateway_process_payment (amount : ℚ) (payment_method : String)
    (card_details : Option CardDetails) (g : Oracle) : PaymentStatus × String × Option String :=
  if amount ≤ 0 then (.failed, "Invalid payment amount", none)
  else if ¬ supported_method_names.contains payment_method then
    (.failed, "Unsupported payment method: " ++ payment_method, none)
  else
    match gateway_card_error payment_method card_details g with
    | some msg => (.failed, "Invalid card details: " ++ msg, none)
    | none => gateway_outcome g

/-- PaymentGateway.refund_payment.  The source formats the success message
with the two-decimal amount; the embedded message uses `toString` of the
rational, which no claim inspects. -/
def refund_payment (transaction_id : Option String) (amount : ℚ) (g : Oracle) :
    PaymentStatus × String :=
  match transaction_id with
  | none => (.failed, "Invalid transaction ID")
  | some t =>
    if t = "" ∨ ¬ t.startsWith "TXN-" then (.failed, "Invalid transaction ID")
    else if amount ≤ 0 then (.failed, "Invalid refund amount")
    else if g.refundRand < 95 / 100 then
      (.refunded, "Refund of " ++ toString amount ++ " processed successfully")
    else (.failed, "Refund processing failed")

/-  ----------------  checkout_service.py  ----------------  -/

/-- An entry of validation_result['valid_items']. -/
structure ValidItem where
  cart_item : CartItem
  product : Product
  item_total : ℚ
  deriving DecidableEq, Repr

/-- An entry of validation_result['invalid_items'] (the product-not-found
shape carries only the cart item id and the reason; the insufficient-stock
shape also carries the diagnostic fields). -/
structure InvalidItem where
  cart_item_id : Nat
  product_name : Option String
  available_stock : Option Int
  requested_quantity : Option Int
  reason : String
  deriving DecidableEq, Repr

/-- The validation_result dict of validate_cart_items. -/
structure ValidationResult where
  valid_items : List ValidItem
  invalid_items : List InvalidItem
  total_amount : ℚ
  item_count : Int
  deriving DecidableEq, Repr

/-- `Query(Cart).filter(Cart.user_id == user_id).all()`. -/
def userCarts (db : DB) (user_id : Nat) : List CartItem :=
  db.carts.filter (fun c => c.user_id == user_id)

/-- One iteration of the `for cart_item in cart_items` loop of
validate_cart_items. -/
def validateStep (db : DB) (r : ValidationResult) (c : CartItem) : ValidationResult :=
  match findProduct db.products c.product_id with
  | none =>
    { r with invalid_items := r.invalid_items ++ [⟨c.id, none, none, none, "Product not found"⟩] }
  | some product =>
    if product.stock < c.quantity then
      { r with invalid_items := r.invalid_items ++
          [⟨c.id, some product.product_name, some product.stock, some c.quantity,
            "Insufficient stock"⟩] }
    else
      let item_total := product.price * (c.quantity : ℚ)
      { r with
          valid_items := r.valid_items ++ [⟨c, product, item_total⟩],
          total_amount := r.total_amount + item_total,
          item_count := r.item_count + c.quantity }

/-- CheckoutService.validate_cart_items; raising CheckoutError is embedded
as `Except.error` with the exception message. -/
def validate_cart_items (db : DB) (user_id : Nat) : Except String ValidationResult :=
  let cart_items := userCarts db user_id
  if cart_items = [] then .error "Cart is empty"
  else .ok (cart_items.foldl (validateStep db) ⟨[], [], 0, 0⟩)

/-- The totals dict of calculate_order_totals. -/
structure Totals where
  subtotal : ℚ
  discount_amount : ℚ
  discount_rate : ℚ
  tax_amount : ℚ
  shipping_amount : ℚ
  final_amount : ℚ
  deriving DecidableEq, Repr

/-- CheckoutService.calculate_order_totals (the address arguments are
unused by the source body as well).  The source's decimal literals 0.10,
0.05, 0.08875 and 199.00 are written as the exact fractions they denote. -/
def calculate_order_totals (cart_validation : ValidationResult) (user : User)
    (_shipping_address _billing_address : String) : Totals :=
  let subtotal := cart_validation.total_amount
  let loyalty_score := user.loyalty_score
  let discount_rate : ℚ :=
    if loyalty_score > 1000 then 10 / 100 else if loyalty_score > 500 then 5 / 100 else 0
  let discount_amount := subtotal * discount_rate
  let tax_rate : ℚ := 8875 / 100000
  let taxable_amount := subtotal - discount_amount
  let tax_amount := taxable_amount * tax_rate
  let shipping_amount : ℚ := if taxable_amount > 1000 then 0 else 199
  let final_amount := taxable_amount + tax_amount + shipping_amount
  ⟨subtotal, discount_amount, discount_rate, tax_amount, shipping_amount, final_amount⟩

/-- The `product.stock -= cart_item.quantity` loop of create_order. -/
def decrementStock : List ValidItem → List Product → List Product
  | [], ps => ps
  | it :: rest, ps =>
    decrementStock rest (updateStockFirst it.product.id (-it.cart_item.quantity) ps)

/-- CheckoutService.create_order: builds the Order row, its OrderItem rows,
decrements stock, accrues loyalty, and commits.  The generated order number
comes from the oracle; the row id models the autoincrement primary key.
Returns the committed store and the persisted order. -/
def create_order (db : DB) (user : User) (cart_validation : ValidationResult)
    (totals : Totals) (shipping_address billing_address payment_method : String)
    (notes : Option String) (g : Oracle) : DB × Order :=
  let order : Order :=
    { id := db.orders.length + 1
      order_number := g.orderNumber
      user_id := user.id
      total_amount := totals.subtotal
      tax_amount := totals.tax_amount
      shipping_amount := totals.shipping_amount
      discount_amount := totals.discount_amount
      final_amount := totals.final_amount
      payment_status := "pending"
      payment_method := payment_method
      transaction_id := none
      shipping_address := shipping_address
      billing_address := billing_address
      order_status := "processing"
      notes := notes }
  let items := cart_validation.valid_items.map (fun it =>
    ({ order_id := order.id
       product_id := it.product.id
       product_name := it.product.product_name
       quantity := it.cart_item.quantity
       unit_price := it.product.price
       total_price := it.item_total } : OrderItem))
  let products2 := decrementStock cart_validation.valid_items db.products
  let users2 := db.users.map (fun u =>
    if u.id == user.id then
      { u with loyalty_score := u.loyalty_score + pyInt (totals.final_amount / 10) }
    else u)
  ({ db with
      orders := db.orders ++ [order]
      order_items := db.order_items ++ items
      products := products2
      users := users2 },
   order)

/-- The payment-result dict returned by CheckoutService.process_payment. -/
structure PaymentResult where
  success : Bool
  status : String
  message : String
  transaction_id : Option String
  order_id : Nat
  order_number : String
  deriving DecidableEq, Repr

/-- Mutating a field of the order row fetched earlier: updates the first
order row with the given id. -/
def updateOrderFirst (oid : Nat) (f : Order → Order) : List Order → List Order
  | [] => []
  | o :: os => if o.id == oid then f o :: os else o :: updateOrderFirst oid f os

/-- The sequential validations at the head of CheckoutService.process_payment
(unsupported method, missing card details for card methods, invalid supplied
card details), in source order; returns the CheckoutError message of the
first one that fires. -/
def service_validation_error (payment_method : String) (card_details : Option CardDetails)
    (g : Oracle) : Option String :=
  if ¬ supported_method_names.contains payment_method then
    some ("Unsupported payment method: " ++ payment_method)
  else if (payment_method = "credit_card" ∨ payment_method = "debit_card") ∧
      card_details = none then
    some "Card details required for card payments"
  else
    match card_details with
    | some cd =>
      match validate_card_details cd g.nowYear g.nowMonth with
      | (false, msg) => some ("Invalid card details: " ++ msg)
      | (true, _) => none
    | none => none

/-- CheckoutService.process_payment.  Its `except Exception` clause wraps
every exception raised inside the try block — its own CheckoutErrors
included — into `CheckoutError("Payment processing failed: " + str(e))`,
so every error message carries that prefix.  `g.gatewayRaises` injects an
exception thrown by the gateway call itself.  On a gateway response the
order row is updated (payment_status, transaction_id, and order_status on
success) and committed. -/
def service_process_payment (db : DB) (order : Order) (payment_method : String)
    (card_details : Option CardDetails) (g : Oracle) : DB × Except String PaymentResult :=
  match service_validation_error payment_method card_details g with
  | some e => (db, .error ("Payment processing failed: " ++ e))
  | none =>
    if g.gatewayRaises then (db, .error ("Payment processing failed: " ++ g.gatewayErrMsg))
    else
      let r := gateway_process_payment order.final_amount payment_method card_details g
      let payment_status := r.1
      let message := r.2.1
      let transaction_id := r.2.2
      let upd : Order → Order := fun o =>
        let o1 :=
          if payment_status = .success then { o with payment_status := "paid" }
          else { o with payment_status := payment_status.value }
        let o2 :=
          match transaction_id with
          | some t => { o1 with transaction_id := some t }
          | none => o1
        if payment_status = .success then { o2 with order_status := "confirmed" } else o2
      let db2 := { db with orders := updateOrderFirst order.id upd db.orders }
      let result_message :=
        if payment_status = .success then
          "Payment successful! Transaction ID: " ++ transaction_id.getD ""
        else if payment_status = .failed then "Payment failed: " ++ message
        else "Payment " ++ payment_status.value ++ ": " ++ message
      (db2,
       .ok { success := payment_status == .success
             status := payment_status.value
             message := result_message
             transaction_id := transaction_id
             order_id := order.id
             order_number := order.order_number })

/-- One line of the items list in the checkout result dict. -/
structure ItemLine where
  product_name : String
  quantity : Int
  price : ℚ
  total : ℚ
  deriving DecidableEq, Repr

/-- The discriminated result of complete_checkout: the normal dict (whose
`success` key mirrors the payment result) or the caught-exception dict
(error message, error_type). -/
inductive CheckoutResult where
  | ok (success : Bool) (order_id : Nat) (order_number : String) (final_amount : ℚ)
      (payment_result : PaymentResult) (items : List ItemLine)
  | failure (error : String) (error_type : String)
  deriving DecidableEq, Repr

/-- `Query(Cart).filter(Cart.user_id == user_id).delete()`. -/
def clear_cart (db : DB) (user_id : Nat) : DB :=
  { db with carts := db.carts.filter (fun c => !(c.user_id == user_id)) }

/-- CheckoutService.complete_checkout.  The returned `DB` is the committed
store after the call: a CheckoutError from validation rolls back nothing
(nothing was mutated); `g.createRaises` injects a storage fault at
create_order's commit, caught by the generic handler (system_error) with
the committed store unchanged; an exception inside process_payment is
caught after create_order has already committed, so the rollback restores
only to that committed state. -/
def complete_checkout (db : DB) (user : User)
    (shipping_address billing_address payment_method : String)
    (card_details : Option CardDetails) (notes : Option String) (g : Oracle) :
    DB × CheckoutResult :=
  match validate_cart_items db user.id with
  | .error e => (db, .failure e "checkout_error")
  | .ok cart_validation =>
    if cart_validation.valid_items = [] then
      (db, .failure "No valid items in cart" "checkout_error")
    else
      let totals :=
        calculate_order_totals cart_validation user shipping_address billing_address
      if g.createRaises then
        (db, .failure ("Checkout failed: " ++ g.createErrMsg) "system_error")
      else
        let p := create_order db user cart_validation totals shipping_address
          billing_address payment_method notes g
        let db1 := p.1
        let order := p.2
        match service_process_payment db1 order payment_method card_details g with
        | (_, .error e) => (db1, .failure e "checkout_error")
        | (db2, .ok payment_result) =>
          let db3 := if payment_result.success then clear_cart db2 user.id else db2
          (db3,
           .ok payment_result.success order.id order.order_number totals.final_amount
             payment_result
             (cart_validation.valid_items.map (fun it =>
               ⟨it.product.product_name, it.cart_item.quantity, it.product.price,
                it.item_total⟩)))

/-- CheckoutService.get_order_details. -/
def get_order_details (db : DB) (order_id user_id : Nat) : Option Order :=
  db.orders.find? (fun o => o.id == order_id && o.user_id == user_id)

/-- The refund_result dict recorded by cancel_order. -/
structure RefundInfo where
  status : String
  message : String
  amount : ℚ
  deriving DecidableEq, Repr

/-- The result dict of cancel_order. -/
structure CancelResult where
  success : Bool
  order_id : Nat
  order_number : String
  refund_result : Option RefundInfo
  deriving DecidableEq, Repr

/-- The stock-restoration loop of cancel_order: for each order item, look
the product up and, when it exists, increment its stock by the item's
quantity. -/
def restoreStock : List OrderItem → List Product → List Product
  | [], ps => ps
  | it :: rest, ps =>
    restoreStock rest
      (match findProduct ps it.product_id with
       | some _ => updateStockFirst it.product_id it.quantity ps
       | none => ps)

/-- CheckoutService.cancel_order.  The two CheckoutErrors are raised before
any mutation, so the error cases return the store unchanged; on the success
path the status updates and the stock restoration are committed together. -/
def cancel_order (db : DB) (order_id user_id : Nat) (g : Oracle) :
    DB × Except String CancelResult :=
  match get_order_details db order_id user_id with
  | none => (db, .error "Order not found")
  | some order =>
    if ¬ (order.order_status = "processing" ∨ order.order_status = "confirmed") then
      (db, .error "Cannot cancel order in current status")
    else
      let refund_result : Option RefundInfo :=
        if order.payment_status = "success" then
          let rr := refund_payment order.transaction_id order.final_amount g
          some ⟨rr.1.value, rr.2, order.final_amount⟩
        else none
      let upd : Order → Order := fun o =>
        { o with
            order_status := "cancelled"
            payment_status := if refund_result.isSome then "refunded" else "cancelled" }
      let orders2 := updateOrderFirst order.id upd db.orders
      let items := db.order_items.filter (fun it => it.order_id == order_id)
      let products2 := restoreStock items db.products
      ({ db with orders := orders2, products := products2 },
       .ok ⟨true, order.id, order.order_number, refund_result⟩)

/-- Modelled from the spec: the two-decimal rounding `round(x, 2)` that the
spec asserts for `final_amount` (src has no rounding call; Python's round
uses round-half-to-even).  Used only to compare the spec's claimed
behaviour with the source's `calculate_order_totals`. -/
def roundHalfEven (q : ℚ) : Int :=
  let f := ⌊q⌋
  let frac := q - f
  if frac < 1 / 2 then f
  else if frac > 1 / 2 then f + 1
  else if 2 ∣ f then f else f + 1

/-- Modelled from the spec: `round(x, 2)` lifted to two decimal places. -/
def specRound2 (q : ℚ) : ℚ :=
  (roundHalfEven (q * 100) : ℚ) / 100

/-  ----------------  specification-side helpers  ----------------  -/

/-- Order row by primary key (`Query(Order).filter(Order.id == oid).first()`). -/
def findOrderById (db : DB) (oid : Nat) : Option Order :=
  db.orders.find? (fun o => o.id == oid)

/-- Declarative description of one cart line of validate_cart_items:
the valid-items entry the line contributes, if any. -/
def classifyValid (db : DB) (c : CartItem) : Option ValidItem :=
  match findProduct db.products c.product_id with
  | none => none
  | some p =>
    if p.stock < c.quantity then none
    else some ⟨c, p, p.price * (c.quantity : ℚ)⟩

/-- Declarative description of one cart line of validate_cart_items:
the invalid-items entry the line contributes, if any. -/
def classifyInvalid (db : DB) (c : CartItem) : Option InvalidItem :=
  match findProduct db.products c.product_id with
  | none => some ⟨c.id, none, none, none, "Product not found"⟩
  | some p =>
    if p.stock < c.quantity then
      some ⟨c.id, some p.product_name, some p.stock, some c.quantity, "Insufficient stock"⟩
    else none

/-- A sequence of per-product stock adjustments, applied in order; both the
stock decrement of create_order and the stock restoration of cancel_order
are instances of it. -/
def applyStockDeltas (ds : List (Nat × Int)) (ps : List Product) : List Product :=
  ds.foldl (fun acc d => updateStockFirst d.1 d.2 acc) ps

/-  ----------------  concrete fixtures for witnesses  ----------------  -/

/-- A user, product and cart line used as concrete inputs by the claim
witnesses and counterexamples. -/
def sampleUser : User := ⟨1, 0⟩
def sampleProduct : Product := ⟨1, "Silk Gown", 100, 5⟩
def sampleDB : DB := ⟨[sampleUser], [sampleProduct], [⟨1, 1, 1, 2⟩], [], []⟩

/-- A three-line cart: one valid line, one referencing a missing product,
one requesting more than the available stock. -/
def dbC8 : DB :=
  ⟨[sampleUser], [⟨1, "Silk Gown", 100, 5⟩, ⟨2, "Scarf", 20, 1⟩],
   [⟨1, 1, 1, 2⟩, ⟨2, 1, 99, 1⟩, ⟨3, 1, 2, 10⟩], [], []⟩

/-- The validation result of `validate_cart_items dbC8 1`. -/
def vC8 : ValidationResult :=
  ⟨[⟨⟨1, 1, 1, 2⟩, ⟨1, "Silk Gown", 100, 5⟩, 200⟩],
   [⟨2, none, none, none, "Product not found"⟩,
    ⟨3, some "Scarf", some 1, some 10, "Insufficient stock"⟩],
   200, 2⟩

/-- A store whose only user has an empty cart. -/
def dbEmptyCart : DB := ⟨[sampleUser], [sampleProduct], [], [], []⟩

/-- The validation result of `validate_cart_items sampleDB 1`. -/
def vSample : ValidationResult :=
  ⟨[⟨⟨1, 1, 1, 2⟩, sampleProduct, 200⟩], [], 200, 2⟩

/-- The committed store after a checkout of sampleDB whose payment the
gateway accepted (the default oracle's payRand 0 selects SUCCESS). -/
def dbAfterPaid : DB :=
  (complete_checkout sampleDB sampleUser "a" "b" "upi" none none {}).1

/-- A stored order whose payment_status is the literal "success" (the value
cancel_order's refund branch tests for), with one order item. -/
def orderC3 : Order :=
  ⟨1, "LUX-3", 1, 200, 17, 199, 0, 100, "success", "upi",
   some "TXN-20260101-CCCCCCCC", "a", "b", "confirmed", none⟩

def dbC3 : DB :=
  ⟨[sampleUser], [sampleProduct], [], [orderC3], [⟨1, 1, "Silk Gown", 2, 100, 200⟩]⟩

/-- A pending processing order awaiting payment, with its user's cart
still holding one line. -/
def orderC4 : Order :=
  ⟨1, "LUX-4", 1, 200, 17, 199, 0, 416, "pending", "upi", none, "a", "b",
   "processing", none⟩

def dbC4 : DB := ⟨[sampleUser], [sampleProduct], [⟨1, 1, 1, 2⟩], [orderC4], []⟩

/-- An order in a non-cancellable status ("shipped"). -/
def dbC7 : DB :=
  ⟨[sampleUser], [sampleProduct], [],
   [⟨1, "LUX-1", 1, 200, 17, 199, 0, 416, "paid", "upi", none, "a", "b",
     "shipped", none⟩], []⟩

/-  ----------------  support lemmas  ----------------  -/

theorem findProduct_updateStockFirst_self (ps : List Product) (pid : Nat) (d : Int) :
    findProduct (updateStockFirst pid d ps) pid =
      (findProduct ps pid).map (fun p => { p with stock := p.stock + d }) := by
  induction ps with
  | nil => rfl
  | cons p ps ih =>
    cases hb : (p.id == pid) with
    | true =>
      simp only [updateStockFirst, hb, if_true]
      simp [findProduct, List.find?, hb]
    | false =>
      simp only [updateStockFirst, hb, Bool.false_eq_true, if_false]
      simpa [findProduct, List.find?, hb] using ih

theorem findProduct_updateStockFirst_other (ps : List Product) (pid pid2 : Nat) (d : Int)
    (hne : pid2 ≠ pid) :
    findProduct (updateStockFirst pid d ps) pid2 = findProduct ps pid2 := by
  induction ps with
  | nil => rfl
  | cons p ps ih =>
    cases hb : (p.id == pid) with
    | true =>
      have hid : p.id = pid := by simpa using hb
      have hno : (p.id == pid2) = false := by
        rw [hid]
        exact beq_eq_false_iff_ne.mpr fun hh => hne hh.symm
      simp only [updateStockFirst, hb, if_true]
      simp [findProduct, List.find?, hno]
    | false =>
      simp only [updateStockFirst, hb, Bool.false_eq_true, if_false]
      cases hb2 : (p.id == pid2) with
      | true => simp [findProduct, List.find?, hb2]
      | false => simpa [findProduct, List.find?, hb2] using ih

theorem updateStockFirst_not_found (ps : List Product) (pid : Nat) (d : Int)
    (h : findProduct ps pid = none) :
    updateStockFirst pid d ps = ps := by
  induction ps with
  | nil => rfl
  | cons p ps ih =>
    cases hb : (p.id == pid) with
    | true =>
      simp [findProduct, List.find?, hb] at h
    | false =>
      simp only [findProduct, List.find?, hb] at h
      simp only [updateStockFirst, hb, Bool.false_eq_true, if_false]
      rw [ih h]

theorem findProduct_applyStockDeltas (ds : List (Nat × Int)) (ps : List Product)
    (pid : Nat) (p : Product) (h : findProduct ps pid = some p) :
    findProduct (applyStockDeltas ds ps) pid =
      some { p with stock := p.stock + ((ds.filter (fun d => d.1 == pid)).map Prod.snd).sum } := by
  induction ds generalizing ps p with
  | nil => simpa [applyStockDeltas] using h
  | cons d ds ih =>
    cases hb : (d.1 == pid) with
    | true =>
      have hid : d.1 = pid := by simpa using hb
      have h2 : findProduct (updateStockFirst d.1 d.2 ps) pid =
          some { p with stock := p.stock + d.2 } := by
        rw [hid, findProduct_updateStockFirst_self, h]
        rfl
      have := ih (updateStockFirst d.1 d.2 ps) _ h2
      simp only [applyStockDeltas, List.foldl_cons] at this ⊢
      rw [this]
      simp [List.filter_cons, hb, add_assoc]
    | false =>
      have hid : pid ≠ d.1 := fun hh => by simp [hh.symm] at hb
      have h2 : findProduct (updateStockFirst d.1 d.2 ps) pid = some p := by
        rw [findProduct_updateStockFirst_other _ _ _ _ hid]
        exact h
      have := ih (updateStockFirst d.1 d.2 ps) _ h2
      simp only [applyStockDeltas, List.foldl_cons] at this ⊢
      rw [this]
      simp [List.filter_cons, hb]

theorem restoreStock_eq_deltas (items : List OrderItem) (ps : List Product) :
    restoreStock items ps =
      applyStockDeltas (items.map (fun it => (it.product_id, it.quantity))) ps := by
  induction items generalizing ps with
  | nil => rfl
  | cons it rest ih =>
    cases hf : findProduct ps it.product_id with
    | some p =>
      simp only [restoreStock, hf, applyStockDeltas, List.map_cons, List.foldl_cons]
      exact ih _
    | none =>
      simp only [restoreStock, hf, applyStockDeltas, List.map_cons, List.foldl_cons]
      rw [updateStockFirst_not_found _ _ _ hf]
      exact ih _

theorem decrementStock_eq_deltas (items : List ValidItem) (ps : List Product) :
    decrementStock items ps =
      applyStockDeltas (items.map (fun it => (it.product.id, -it.cart_item.quantity))) ps := by
  induction items generalizing ps with
  | nil => rfl
  | cons it rest ih =>
    simp only [decrementStock, applyStockDeltas, List.map_cons, List.foldl_cons]
    exact ih _

theorem sum_map_neg {α : Type} (l : List α) (f : α → Int) :
    (l.map (fun x => -f x)).sum = -(l.map f).sum := by
  induction l with
  | nil => simp
  | cons x l ih => simp [ih]; ring

theorem filter_map_snd {α : Type} (l : List α) (key : α → Nat) (val : α → Int) (pid : Nat) :
    (((l.map (fun x => (key x, val x))).filter (fun d => d.1 == pid)).map Prod.snd) =
      (l.filter (fun x => key x == pid)).map val := by
  induction l with
  | nil => rfl
  | cons x l ih =>
    cases hb : (key x == pid) with
    | true => simp [List.filter_cons, hb, ih]
    | false => simp [List.filter_cons, hb, ih]

theorem validate_foldl_spec (db : DB) (cs : List CartItem) (r : ValidationResult) :
    (cs.foldl (validateStep db) r).valid_items =
        r.valid_items ++ cs.filterMap (classifyValid db) ∧
    (cs.foldl (validateStep db) r).invalid_items =
        r.invalid_items ++ cs.filterMap (classifyInvalid db) ∧
    (cs.foldl (validateStep db) r).total_amount =
        r.total_amount + ((cs.filterMap (classifyValid db)).map ValidItem.item_total).sum ∧
    (cs.foldl (validateStep db) r).item_count =
        r.item_count +
          ((cs.filterMap (classifyValid db)).map (fun v => v.cart_item.quantity)).sum := by
  induction cs generalizing r with
  | nil => simp
  | cons c cs ih =>
    obtain ⟨ih1, ih2, ih3, ih4⟩ := ih (validateStep db r c)
    simp only [List.foldl_cons, List.filterMap_cons]
    cases hf : findProduct db.products c.product_id with
    | none =>
      simp only [validateStep, hf] at ih1 ih2 ih3 ih4
      simp only [validateStep, classifyValid, classifyInvalid, hf]
      refine ⟨by simpa using ih1, by simpa [List.append_assoc] using ih2,
        by simpa using ih3, by simpa using ih4⟩
    | some p =>
      by_cases hs : p.stock < c.quantity
      · simp only [validateStep, hf, hs, if_true] at ih1 ih2 ih3 ih4
        simp only [validateStep, classifyValid, classifyInvalid, hf, hs, if_true]
        refine ⟨by simpa using ih1, by simpa [List.append_assoc] using ih2,
          by simpa using ih3, by simpa using ih4⟩
      · simp only [validateStep, hf, hs, if_false] at ih1 ih2 ih3 ih4
        simp only [validateStep, classifyValid, classifyInvalid, hf, hs, if_false]
        refine ⟨by simpa [List.append_assoc] using ih1, by simpa using ih2,
          by simpa [add_assoc] using ih3, by simpa [add_assoc] using ih4⟩

theorem find_updateOrderFirst (os : List Order) (oid : Nat) (f : Order → Order)
    (order : Order) (h : os.find? (fun o => o.id == oid) = some order)
    (hf : (f order).id = order.id) :
    (updateOrderFirst oid f os).find? (fun o => o.id == oid) = some (f order) := by
  induction os with
  | nil => simp at h
  | cons o os ih =>
    cases hb : (o.id == oid) with
    | true =>
      have ho : o = order := by simpa [List.find?, hb] using h
      subst ho
      simp only [updateOrderFirst, hb, if_true]
      have hfb : ((f o).id == oid) = true := by rw [hf]; exact hb
      simp [List.find?, hfb]
    | false =>
      simp only [List.find?, hb] at h
      simp only [updateOrderFirst, hb, Bool.false_eq_true, if_false]
      simpa [List.find?, hb] using ih h

theorem service_process_payment_carts (db : DB) (order : Order) (pm : String)
    (cd : Option CardDetails) (g : Oracle) :
    (service_process_payment db order pm cd g).1.carts = db.carts := by
  rw [service_process_payment]
  rcases service_validation_error pm cd g with _ | e
  · by_cases hg : g.gatewayRaises <;> simp [hg]
  · rfl

theorem create_order_carts (db : DB) (u : User) (v : ValidationResult) (t : Totals)
    (sa ba pm : String) (notes : Option String) (g : Oracle) :
    (create_order db u v t sa ba pm notes g).1.carts = db.carts := rfl

/-  ----------------  claim theorems  ----------------  -/

/-- Claim C5: for every subtotal and loyalty score, calculate_order_totals
computes discount_amount = subtotal * r with r = 0.10 for score > 1000,
0.05 for score > 500, else 0; tax_amount = 8.875% of (subtotal -
discount_amount); shipping_amount = 0 when (subtotal - discount_amount)
exceeds 1000 and 199 otherwise; and final_amount = (subtotal -
discount_amount) + tax_amount + shipping_amount. -/
theorem C5_totals_formula (cv : ValidationResult) (u : User) (sa ba : String) :
    (calculate_order_totals cv u sa ba).discount_amount =
      cv.total_amount *
        (if u.loyalty_score > 1000 then (0.10 : ℚ)
         else if u.loyalty_score > 500 then 0.05 else 0) ∧
    (calculate_order_totals cv u sa ba).tax_amount =
      (8.875 / 100) *
        (cv.total_amount - (calculate_order_totals cv u sa ba).discount_amount) ∧
    (calculate_order_totals cv u sa ba).shipping_amount =
      (if cv.total_amount - (calculate_order_totals cv u sa ba).discount_amount > 1000
       then 0 else 199) ∧
    (calculate_order_totals cv u sa ba).final_amount =
      (cv.total_amount - (calculate_order_totals cv u sa ba).discount_amount) +
        (calculate_order_totals cv u sa ba).tax_amount +
        (calculate_order_totals cv u sa ba).shipping_amount := by
  refine ⟨?_, ?_, ?_, ?_⟩
  · simp only [calculate_order_totals]
    split_ifs <;> norm_num
  · simp only [calculate_order_totals]
    ring
  · simp [calculate_order_totals]
  · simp [calculate_order_totals]

/-- Claim C6, counterexample: at subtotal 500 and loyalty score 1200 the
code's tax_amount is exactly 39.9375 (not the claimed 39.94) and its
final_amount is exactly 688.9375 (not the claimed 688.94); in particular
final_amount differs from round((subtotal - discount) + tax + shipping, 2),
so the two-decimal-precision claim fails. -/
theorem C6_counterexample :
    (calculate_order_totals ⟨[], [], 500, 0⟩ ⟨1, 1200⟩ "s" "b").tax_amount = 639 / 16 ∧
    (calculate_order_totals ⟨[], [], 500, 0⟩ ⟨1, 1200⟩ "s" "b").final_amount = 11023 / 16 ∧
    ¬ ((calculate_order_totals ⟨[], [], 500, 0⟩ ⟨1, 1200⟩ "s" "b").tax_amount = 3994 / 100) ∧
    ¬ ((calculate_order_totals ⟨[], [], 500, 0⟩ ⟨1, 1200⟩ "s" "b").final_amount = 68894 / 100) ∧
    ¬ ((calculate_order_totals ⟨[], [], 500, 0⟩ ⟨1, 1200⟩ "s" "b").final_amount =
        specRound2 ((500 - (calculate_order_totals ⟨[], [], 500, 0⟩ ⟨1, 1200⟩ "s" "b").discount_amount) +
          (calculate_order_totals ⟨[], [], 500, 0⟩ ⟨1, 1200⟩ "s" "b").tax_amount +
          (calculate_order_totals ⟨[], [], 500, 0⟩ ⟨1, 1200⟩ "s" "b").shipping_amount)) := by
  have h : (calculate_order_totals ⟨[], [], 500, 0⟩ ⟨1, 1200⟩ "s" "b") =
      ⟨500, 50, 1 / 10, 639 / 16, 199, 11023 / 16⟩ := by
    norm_num [calculate_order_totals]
  rw [h]
  refine ⟨rfl, rfl, by norm_num, by norm_num, ?_⟩
  norm_num [specRound2, roundHalfEven]

/-- Claim C6 as amended: the totals calculation performs no rounding —
final_amount is the exact sum (subtotal - discount) + tax + shipping with
tax the exact 8.875% of the taxable amount; in particular subtotal 500 with
loyalty score 1200 yields tax_amount = 39.9375 and final_amount =
688.9375. -/
theorem C6_amended_exact_sum :
    (∀ (cv : ValidationResult) (u : User) (sa ba : String),
       (calculate_order_totals cv u sa ba).final_amount =
         (cv.total_amount - (calculate_order_totals cv u sa ba).discount_amount) +
           (calculate_order_totals cv u sa ba).tax_amount +
           (calculate_order_totals cv u sa ba).shipping_amount ∧
       (calculate_order_totals cv u sa ba).tax_amount =
         (8.875 / 100) *
           (cv.total_amount - (calculate_order_totals cv u sa ba).discount_amount)) ∧
    (calculate_order_totals ⟨[], [], 500, 0⟩ ⟨1, 1200⟩ "s" "b").tax_amount = 639 / 16 ∧
    (calculate_order_totals ⟨[], [], 500, 0⟩ ⟨1, 1200⟩ "s" "b").final_amount = 11023 / 16 := by
  refine ⟨fun cv u sa ba => ⟨rfl, ?_⟩, by norm_num [calculate_order_totals],
    by norm_num [calculate_order_totals]⟩
  simp only [calculate_order_totals]
  ring

/-- Claim C7: cancel_order succeeds only when the order's order_status is
"processing" or "confirmed"; for every order in "shipped", "delivered" or
"cancelled" it fails with the explicit cannot-cancel error and returns the
store unchanged (no order, payment-status or stock mutation). -/
theorem C7_cancel_status_gate (db : DB) (oid uid : Nat) (g : Oracle) :
    (∀ db2 r, cancel_order db oid uid g = (db2, .ok r) →
       ∃ o, get_order_details db oid uid = some o ∧
         (o.order_status = "processing" ∨ o.order_status = "confirmed")) ∧
    (∀ o, get_order_details db oid uid = some o →
       (o.order_status = "shipped" ∨ o.order_status = "delivered" ∨
        o.order_status = "cancelled") →
       cancel_order db oid uid g =
         (db, .error "Cannot cancel order in current status")) := by
  constructor
  · intro db2 r h
    cases hf : get_order_details db oid uid with
    | none =>
      simp only [cancel_order, hf] at h
      exact absurd h (by simp)
    | some o =>
      refine ⟨o, rfl, ?_⟩
      by_cases hs : o.order_status = "processing" ∨ o.order_status = "confirmed"
      · exact hs
      · simp only [cancel_order, hf, hs, not_false_eq_true, if_true] at h
        exact absurd h (by simp)
  · intro o hf hs
    have hno : ¬ (o.order_status = "processing" ∨ o.order_status = "confirmed") := by
      rcases hs with h1 | h1 | h1 <;> rw [h1] <;> simp
    simp only [cancel_order, hf, hno, not_false_eq_true, if_true]

/-- Witness for C7: a concrete shipped order cannot be cancelled and the
store is returned unchanged. -/
theorem C7_cancel_status_gate_witness :
    cancel_order dbC7 1 1 {} =
      (dbC7, .error "Cannot cancel order in current status") :=
  (C7_cancel_status_gate dbC7 1 1 {}).2
    ⟨1, "LUX-1", 1, 200, 17, 199, 0, 416, "paid", "upi", none, "a", "b",
     "shipped", none⟩ rfl (Or.inl rfl)

/-- Claim C8: validate_cart_items raises the checkout error exactly when the
user's cart is empty; otherwise each cart line is recorded as invalid with
reason "Product not found" when the product is missing, invalid with reason
"Insufficient stock" when stock < requested quantity, and valid with line
total price * quantity otherwise, with valid line totals accumulated into
total_amount and valid quantities into item_count. -/
theorem C8_validate_cart_spec (db : DB) (uid : Nat) :
    (validate_cart_items db uid = .error "Cart is empty" ↔ userCarts db uid = []) ∧
    (∀ v, validate_cart_items db uid = .ok v →
       v.valid_items = (userCarts db uid).filterMap (classifyValid db) ∧
       v.invalid_items = (userCarts db uid).filterMap (classifyInvalid db) ∧
       v.total_amount = (v.valid_items.map ValidItem.item_total).sum ∧
       v.item_count = (v.valid_items.map (fun it => it.cart_item.quantity)).sum) := by
  constructor
  · constructor
    · intro h
      by_contra hne
      simp only [validate_cart_items, hne, if_false] at h
      exact absurd h (by simp)
    · intro h
      simp [validate_cart_items, h]
  · intro v hv
    by_cases h : userCarts db uid = []
    · simp [validate_cart_items, h] at hv
    · simp only [validate_cart_items, h, if_false, Except.ok.injEq] at hv
      obtain ⟨h1, h2, h3, h4⟩ := validate_foldl_spec db (userCarts db uid) ⟨[], [], 0, 0⟩
      subst hv
      refine ⟨by simpa using h1, by simpa using h2, ?_, ?_⟩
      · rw [h3, h1]
        simp
      · rw [h4, h1]
        simp

/-- Witness for C8: a concrete three-line cart (one valid line, one missing
product, one with insufficient stock). -/
theorem C8_validate_cart_spec_witness :
    validate_cart_items dbC8 1 = .ok vC8 ∧
    (vC8.valid_items = (userCarts dbC8 1).filterMap (classifyValid dbC8) ∧
     vC8.invalid_items = (userCarts dbC8 1).filterMap (classifyInvalid dbC8) ∧
     vC8.total_amount = (vC8.valid_items.map ValidItem.item_total).sum ∧
     vC8.item_count = (vC8.valid_items.map (fun it => it.cart_item.quantity)).sum) :=
  ⟨by with_unfolding_all rfl,
   (C8_validate_cart_spec dbC8 1).2 vC8 (by with_unfolding_all rfl)⟩

/-- Claim C9, counterexample: amount 100 with the supported method
credit_card but invalid supplied card details (an empty dict) is rejected
with FAILED and NO transaction id, refuting "for every other input
(positive amount, supported method) it returns some transaction id". -/
theorem C9_counterexample :
    gateway_process_payment 100 "credit_card" (some ⟨none, none, none, none⟩) {} =
      (.failed, "Invalid card details: Missing required field: card_number", none) ∧
    (0 : ℚ) < 100 ∧
    supported_method_names.contains "credit_card" = true := by
  refine ⟨by with_unfolding_all rfl, by norm_num, by decide⟩

/-- Claim C9 as amended: the gateway returns FAILED with no transaction id
for every non-positive amount and every unsupported method; for every other
input (positive amount, supported method) it returns some transaction id —
including when the chosen outcome is a synthetic failure or timeout —
unless the method is a card method whose supplied card details fail
validation, in which case it also returns FAILED with no transaction id. -/
theorem C9_amended_gateway_contract (amount : ℚ) (pm : String)
    (cd : Option CardDetails) (g : Oracle) :
    (amount ≤ 0 →
       gateway_process_payment amount pm cd g =
         (.failed, "Invalid payment amount", none)) ∧
    (0 < amount → supported_method_names.contains pm = false →
       gateway_process_payment amount pm cd g =
         (.failed, "Unsupported payment method: " ++ pm, none)) ∧
    (∀ msg, 0 < amount → supported_method_names.contains pm = true →
       gateway_card_error pm cd g = some msg →
       gateway_process_payment amount pm cd g =
         (.failed, "Invalid card details: " ++ msg, none)) ∧
    (0 < amount → supported_method_names.contains pm = true →
       gateway_card_error pm cd g = none →
       (gateway_process_payment amount pm cd g).2.2 = some g.txnId) := by
  refine ⟨?_, ?_, ?_, ?_⟩
  · intro h
    simp [gateway_process_payment, h]
  · intro h hm
    have hm2 : pm ∉ supported_method_names := by simpa using hm
    rw [gateway_process_payment, if_neg (not_le.mpr h)]
    simp [hm2]
  · intro msg h hm hc
    have hm2 : pm ∈ supported_method_names := by simpa using hm
    rw [gateway_process_payment, if_neg (not_le.mpr h)]
    simp [hm2, hc]
  · intro h hm hc
    have hm2 : pm ∈ supported_method_names := by simpa using hm
    rw [gateway_process_payment, if_neg (not_le.mpr h)]
    simp only [hm2, not_true_eq_false, if_false, ite_false, hc]
    rw [gateway_outcome]
    split_ifs <;> simp

/-- Witness for C9: a positive UPI payment always carries the synthesized
transaction id. -/
theorem C9_amended_gateway_contract_witness :
    (gateway_process_payment 50 "upi" none {}).2.2 = some "TXN-20260101-BBBBBBBB" :=
  (C9_amended_gateway_contract 50 "upi" none {}).2.2.2 (by norm_num) (by decide) rfl

/-- Claim C10 (implicit): for card methods with a positive amount the
gateway performs no card-detail validation at all when card_details is None
— it proceeds to outcome selection and returns SUCCESS whenever the random
draw selects success — while the fail-fast "Card details required"
rejection exists only in CheckoutService.process_payment, which raises
before calling the gateway and leaves the store unchanged. -/
theorem C10_gateway_skips_card_validation (amount : ℚ) (pm : String) (g : Oracle)
    (db : DB) (order : Order) (hpm : pm = "credit_card" ∨ pm = "debit_card") :
    gateway_card_error pm none g = none ∧
    (0 < amount → g.payRand < success_rate →
       gateway_process_payment amount pm none g =
         (.success, "Payment successful", some g.txnId)) ∧
    service_process_payment db order pm none g =
      (db, .error "Payment processing failed: Card details required for card payments") := by
  have hsup : supported_method_names.contains pm = true := by
    rcases hpm with h | h <;> rw [h] <;> decide
  refine ⟨?_, ?_, ?_⟩
  · rw [gateway_card_error]
    split_ifs <;> rfl
  · intro ha hr
    have hc : gateway_card_error pm none g = none := by
      rw [gateway_card_error]
      split_ifs <;> rfl
    have hm2 : pm ∈ supported_method_names := by simpa using hsup
    rw [gateway_process_payment, if_neg (not_le.mpr ha),
      if_neg (show ¬¬(supported_method_names.contains pm = true) from by simp [hm2]), hc]
    simp [gateway_outcome, hr]
  · have hv : service_validation_error pm none g =
        some "Card details required for card payments" := by
      rw [service_validation_error]
      have hm2 : pm ∈ supported_method_names := by simpa using hsup
      simp [hm2, hpm]
    simp [service_process_payment, hv]

/-- Witness for C10: a credit-card payment with no card details sails
through the gateway as SUCCESS, while the service refuses it. -/
theorem C10_gateway_skips_card_validation_witness :
    gateway_process_payment 100 "credit_card" none {} =
      (.success, "Payment successful", some "TXN-20260101-BBBBBBBB") ∧
    service_process_payment sampleDB
        ⟨1, "LUX-1", 1, 200, 17, 199, 0, 416, "pending", "credit_card", none,
         "a", "b", "processing", none⟩ "credit_card" none {} =
      (sampleDB,
       .error "Payment processing failed: Card details required for card payments") :=
  ⟨(C10_gateway_skips_card_validation 100 "credit_card" {} sampleDB
      ⟨1, "LUX-1", 1, 200, 17, 199, 0, 416, "pending", "credit_card", none,
       "a", "b", "processing", none⟩ (Or.inl rfl)).2.1 (by norm_num)
      (by norm_num [success_rate]),
   (C10_gateway_skips_card_validation 100 "credit_card" {} sampleDB
      ⟨1, "LUX-1", 1, 200, 17, 199, 0, 416, "pending", "credit_card", none,
       "a", "b", "processing", none⟩ (Or.inl rfl)).2.2⟩

/-- Claim C1, counterexample: when the gateway call raises an exception
during the payment step, complete_checkout returns its failure result, yet
an Order row persists in the committed store and the product's stock has
been decremented from 5 to 3 — create_order's commit is not rolled back. -/
theorem C1_counterexample :
    (complete_checkout sampleDB sampleUser "a" "b" "upi" none none
        { gatewayRaises := true }).2 =
      .failure "Payment processing failed: gateway connection error" "checkout_error" ∧
    (complete_checkout sampleDB sampleUser "a" "b" "upi" none none
        { gatewayRaises := true }).1.orders.length = 1 ∧
    stockOf (complete_checkout sampleDB sampleUser "a" "b" "upi" none none
        { gatewayRaises := true }).1.products 1 = some 3 ∧
    stockOf sampleDB.products 1 = some 5 := by
  refine ⟨by with_unfolding_all decide, by with_unfolding_all decide,
    by with_unfolding_all decide, by decide⟩

/-- Claim C2 (code bug): a successful gateway payment stores
payment_status "paid", but cancel_order's refund branch tests for the
literal "success", so cancelling the paid order attempts no refund
(refund_result is none) and leaves payment_status "cancelled" — no refund
is ever issued for orders paid through process_payment, contradicting
cancel_order's own docstring ("process refund if payment was
successful"). -/
theorem C2_code_bug_refund_skipped :
    (findOrderById dbAfterPaid 1).map Order.payment_status = some "paid" ∧
    (findOrderById dbAfterPaid 1).map Order.order_status = some "confirmed" ∧
    (findOrderById dbAfterPaid 1).bind Order.transaction_id =
      some "TXN-20260101-BBBBBBBB" ∧
    (cancel_order dbAfterPaid 1 1 {}).2.toOption =
      some ⟨true, 1, "LUX-20260101-AAAAAAAA", none⟩ ∧
    (findOrderById (cancel_order dbAfterPaid 1 1 {}).1 1).map Order.payment_status =
      some "cancelled" := by
  refine ⟨by with_unfolding_all decide, by with_unfolding_all decide,
    by with_unfolding_all decide, by with_unfolding_all decide,
    by with_unfolding_all decide⟩

/-- Claim C3, counterexample: cancelling an order with payment_status
"success" while the gateway refund FAILS (refundRand 0.99 ≥ 0.95) still
sets payment_status to "refunded" — not the "cancelled" the claim
requires — because the code tests only whether a refund was attempted. -/
theorem C3_counterexample :
    (cancel_order dbC3 1 1 { refundRand := 99 / 100 }).2.toOption =
      some ⟨true, 1, "LUX-3", some ⟨"failed", "Refund processing failed", 100⟩⟩ ∧
    (findOrderById (cancel_order dbC3 1 1 { refundRand := 99 / 100 }).1 1).map
        Order.payment_status = some "refunded" ∧
    ¬ ((findOrderById (cancel_order dbC3 1 1 { refundRand := 99 / 100 }).1 1).map
        Order.payment_status = some "cancelled") := by
  refine ⟨by with_unfolding_all decide, by with_unfolding_all decide,
    by with_unfolding_all decide⟩

/-- Claim C4, counterexample: when the gateway declines (payRand 0.9 selects
the declined outcome), the cart is indeed not cleared and order_status stays
"processing", but payment_status becomes "failed" — not the "pending" the
claim states. -/
theorem C4_counterexample :
    (findOrderById (complete_checkout sampleDB sampleUser "a" "b" "upi" none none
        { payRand := 9 / 10 }).1 1).map Order.payment_status = some "failed" ∧
    ¬ ((findOrderById (complete_checkout sampleDB sampleUser "a" "b" "upi" none none
        { payRand := 9 / 10 }).1 1).map Order.payment_status = some "pending") ∧
    (findOrderById (complete_checkout sampleDB sampleUser "a" "b" "upi" none none
        { payRand := 9 / 10 }).1 1).map Order.order_status = some "processing" ∧
    (complete_checkout sampleDB sampleUser "a" "b" "upi" none none
        { payRand := 9 / 10 }).1.carts = sampleDB.carts := by
  refine ⟨by with_unfolding_all decide, by with_unfolding_all decide,
    by with_unfolding_all decide, by with_unfolding_all decide⟩

/-- Claim C3 as amended: whenever cancel_order succeeds, the order's
payment_status afterwards is "refunded" iff a refund was ATTEMPTED (the
stored payment_status was "success"), regardless of the gateway refund's
outcome — a failed refund still yields "refunded", not "cancelled" — the
attempted refund's outcome (status, message, amount) is recorded in the
result, and every order item's existing product has its stock restored by
that product's summed item quantities. -/
theorem C3_amended_refund_flag (db : DB) (oid uid : Nat) (g : Oracle) (order : Order)
    (h1 : get_order_details db oid uid = some order)
    (h2 : findOrderById db oid = some order)
    (h3 : order.order_status = "processing" ∨ order.order_status = "confirmed") :
    (cancel_order db oid uid g).2 =
      .ok ⟨true, order.id, order.order_number,
        if order.payment_status = "success" then
          some ⟨(refund_payment order.transaction_id order.final_amount g).1.value,
                (refund_payment order.transaction_id order.final_amount g).2,
                order.final_amount⟩
        else none⟩ ∧
    findOrderById (cancel_order db oid uid g).1 oid =
      some { order with
               order_status := "cancelled",
               payment_status :=
                 if order.payment_status = "success" then "refunded" else "cancelled" } ∧
    (∀ pid p, findProduct db.products pid = some p →
       stockOf (cancel_order db oid uid g).1.products pid =
         some (p.stock +
           (((db.order_items.filter (fun it => it.order_id == oid)).filter
               (fun it => it.product_id == pid)).map (fun it => it.quantity)).sum)) := by
  have hOid : order.id = oid := by
    have hp := List.find?_some h1
    simp only [Bool.and_eq_true, beq_iff_eq] at hp
    exact hp.1
  simp only [cancel_order, h1]
  rw [if_neg (not_not_intro h3)]
  refine ⟨?_, ?_, ?_⟩
  · by_cases hps : order.payment_status = "success" <;> simp [hps, hOid]
  · rw [findOrderById]
    show (updateOrderFirst order.id _ db.orders).find? (fun o => o.id == oid) = _
    rw [hOid]
    rw [find_updateOrderFirst db.orders oid _ order h2 rfl]
    by_cases hps : order.payment_status = "success" <;> simp [hps, hOid]
  · intro pid p hp
    show stockOf (restoreStock (db.order_items.filter (fun it => it.order_id == oid))
      db.products) pid = _
    rw [stockOf, restoreStock_eq_deltas,
      findProduct_applyStockDeltas _ _ _ _ hp]
    simp [filter_map_snd (db.order_items.filter (fun it => it.order_id == oid))
      (fun it => it.product_id) (fun it => it.quantity) pid]

/-- Witness for C3: cancelling the stored "success" order restores the
product's stock from 5 to 7 (one item of quantity 2). -/
theorem C3_amended_refund_flag_witness :
    stockOf (cancel_order dbC3 1 1 {}).1.products 1 = some 7 := by
  have h := (C3_amended_refund_flag dbC3 1 1 {} orderC3 rfl rfl (Or.inr rfl)).2.2 1
    sampleProduct rfl
  simpa [dbC3, sampleProduct] using h

/-- Claim C4 as amended: when the gateway declines the payment (a payment
failure, not an exception), the cart is not cleared and the order remains
retryable with order_status unchanged ("processing" in the checkout flow)
— but payment_status is set to the gateway's reported status "failed", not
left "pending" — and the synthesized transaction id is recorded. -/
theorem C4_amended_failed_payment_state :
    (∀ (db : DB) (order : Order) (pm : String) (cd : Option CardDetails) (g : Oracle),
       service_validation_error pm cd g = none →
       g.gatewayRaises = false →
       0 < order.final_amount →
       supported_method_names.contains pm = true →
       gateway_card_error pm cd g = none →
       success_rate ≤ g.payRand →
       findOrderById db order.id = some order →
       ∃ db2 pr, service_process_payment db order pm cd g = (db2, .ok pr) ∧
         pr.success = false ∧ pr.status = "failed" ∧
         findOrderById db2 order.id =
           some { order with
                    payment_status := "failed"
                    transaction_id := some g.txnId } ∧
         db2.carts = db.carts) ∧
    (∀ (db : DB) (u : User) (sa ba pm : String) (cd : Option CardDetails)
       (notes : Option String) (g : Oracle) (v : ValidationResult) (db2 : DB)
       (pr : PaymentResult),
       validate_cart_items db u.id = .ok v →
       v.valid_items ≠ [] →
       g.createRaises = false →
       service_process_payment
           (create_order db u v (calculate_order_totals v u sa ba) sa ba pm notes g).1
           (create_order db u v (calculate_order_totals v u sa ba) sa ba pm notes g).2
           pm cd g = (db2, .ok pr) →
       pr.success = false →
       (complete_checkout db u sa ba pm cd notes g).1 = db2 ∧
       (complete_checkout db u sa ba pm cd notes g).1.carts = db.carts) := by
  constructor
  · intro db order pm cd g hval hraise hamt hsup hcard hfail hfound
    have hm2 : pm ∈ supported_method_names := by simpa using hsup
    have hgw : gateway_process_payment order.final_amount pm cd g = gateway_outcome g := by
      rw [gateway_process_payment, if_neg (not_le.mpr hamt),
        if_neg (show ¬¬(supported_method_names.contains pm = true) from by simp [hm2]),
        hcard]
    have hmsg : ∀ msg,
        gateway_process_payment order.final_amount pm cd g = (.failed, msg, some g.txnId) →
        ∃ db2 pr, service_process_payment db order pm cd g = (db2, .ok pr) ∧
          pr.success = false ∧ pr.status = "failed" ∧
          findOrderById db2 order.id =
            some { order with
                     payment_status := "failed"
                     transaction_id := some g.txnId } ∧
          db2.carts = db.carts := by
      intro msg hgw2
      have hserv : service_process_payment db order pm cd g =
          ({ db with
              orders := updateOrderFirst order.id
                (fun o => { o with payment_status := "failed", transaction_id := some g.txnId })
                db.orders },
           .ok ⟨false, "failed", "Payment failed: " ++ msg, some g.txnId, order.id,
                order.order_number⟩) := by
        simp only [service_process_payment, hval]
        rw [if_neg (by simp [hraise])]
        rw [hgw2]
        simp [PaymentStatus.value]
      refine ⟨_, _, hserv, rfl, rfl, ?_, rfl⟩
      show findOrderById { db with orders := _ } order.id = _
      rw [findOrderById]
      show (updateOrderFirst order.id _ db.orders).find? (fun o => o.id == order.id) = _
      rw [find_updateOrderFirst db.orders order.id _ order hfound rfl]
    by_cases hf2 : g.payRand < success_rate + failure_rate
    · exact hmsg _ (by rw [hgw, gateway_outcome, if_neg (not_lt.mpr hfail), if_pos hf2])
    · exact hmsg _ (by rw [hgw, gateway_outcome, if_neg (not_lt.mpr hfail), if_neg hf2])
  · intro db u sa ba pm cd notes g v db2 pr hv hne hcr hserv hfail
    have hcc : complete_checkout db u sa ba pm cd notes g =
        (db2, .ok pr.success
          (create_order db u v (calculate_order_totals v u sa ba) sa ba pm notes g).2.id
          (create_order db u v (calculate_order_totals v u sa ba) sa ba pm notes g).2.order_number
          (calculate_order_totals v u sa ba).final_amount pr
          (v.valid_items.map (fun it =>
            ⟨it.product.product_name, it.cart_item.quantity, it.product.price,
             it.item_total⟩))) := by
      simp only [complete_checkout, hv]
      rw [if_neg hne, if_neg (by simp [hcr])]
      rw [hserv]
      simp [hfail]
    have hcarts : db2.carts = db.carts := by
      have h1 := service_process_payment_carts
        (create_order db u v (calculate_order_totals v u sa ba) sa ba pm notes g).1
        (create_order db u v (calculate_order_totals v u sa ba) sa ba pm notes g).2 pm cd g
      rw [hserv] at h1
      simpa [create_order_carts] using h1
    rw [hcc]
    exact ⟨rfl, hcarts⟩

/-- Witness for C4: a declined UPI payment on a concrete pending order
marks it "failed"/"processing" with the transaction id recorded and the
cart untouched. -/
theorem C4_amended_failed_payment_state_witness :
    ∃ db2 pr, service_process_payment dbC4 orderC4 "upi" none { payRand := 9 / 10 } =
        (db2, .ok pr) ∧
      pr.success = false ∧ pr.status = "failed" ∧
      findOrderById db2 orderC4.id =
        some { orderC4 with
                 payment_status := "failed"
                 transaction_id := some (({ payRand := 9 / 10 } : Oracle)).txnId } ∧
      db2.carts = dbC4.carts :=
  C4_amended_failed_payment_state.1 dbC4 orderC4 "upi" none { payRand := 9 / 10 }
    rfl rfl (by norm_num [orderC4]) (by decide) rfl
    (by norm_num [success_rate]) rfl

/-- Claim C1 as amended: an exception raised during cart validation, totals
calculation or order creation rolls the whole operation back — the
committed store is unchanged and a failure result is returned — but an
exception raised during the payment step does NOT undo order creation:
create_order has already committed, so the failure result is returned with
the created order persisted (payment_status "pending", order_status
"processing") and each product's stock decremented by the ordered
quantities. -/
theorem C1_amended_rollback_scope :
    (∀ (db : DB) (u : User) (sa ba pm : String) (cd : Option CardDetails)
       (notes : Option String) (g : Oracle),
       (userCarts db u.id = [] ∨
        (∃ v, validate_cart_items db u.id = .ok v ∧ v.valid_items = []) ∨
        g.createRaises = true) →
       (complete_checkout db u sa ba pm cd notes g).1 = db ∧
       ∃ e t, (complete_checkout db u sa ba pm cd notes g).2 = .failure e t) ∧
    (∀ (db : DB) (u : User) (sa ba pm : String) (cd : Option CardDetails)
       (notes : Option String) (g : Oracle) (v : ValidationResult) (e : String),
       validate_cart_items db u.id = .ok v →
       v.valid_items ≠ [] →
       g.createRaises = false →
       (service_process_payment
           (create_order db u v (calculate_order_totals v u sa ba) sa ba pm notes g).1
           (create_order db u v (calculate_order_totals v u sa ba) sa ba pm notes g).2
           pm cd g).2 = .error e →
       complete_checkout db u sa ba pm cd notes g =
         ((create_order db u v (calculate_order_totals v u sa ba) sa ba pm notes g).1,
          .failure e "checkout_error") ∧
       (create_order db u v (calculate_order_totals v u sa ba) sa ba pm notes g).2 ∈
         (create_order db u v (calculate_order_totals v u sa ba) sa ba pm notes g).1.orders ∧
       ((create_order db u v (calculate_order_totals v u sa ba) sa ba pm notes g).2).payment_status =
         "pending" ∧
       ((create_order db u v (calculate_order_totals v u sa ba) sa ba pm notes g).2).order_status =
         "processing" ∧
       (∀ pid p, findProduct db.products pid = some p →
          stockOf
              (create_order db u v (calculate_order_totals v u sa ba) sa ba pm notes g).1.products
              pid =
            some (p.stock -
              ((v.valid_items.filter (fun it => it.product.id == pid)).map
                 (fun it => it.cart_item.quantity)).sum))) := by
  constructor
  · intro db u sa ba pm cd notes g hyp
    rcases hyp with hev | ⟨v, hv, hempty⟩ | hcr
    · have hval : validate_cart_items db u.id = .error "Cart is empty" := by
        simp [validate_cart_items, hev]
      simp only [complete_checkout, hval]
      exact ⟨by trivial, _, _, rfl⟩
    · simp only [complete_checkout, hv]
      rw [if_pos hempty]
      exact ⟨by trivial, _, _, rfl⟩
    · cases hval : validate_cart_items db u.id with
      | error e =>
        simp only [complete_checkout, hval]
        exact ⟨by trivial, _, _, rfl⟩
      | ok v =>
        simp only [complete_checkout, hval]
        by_cases hve : v.valid_items = []
        · rw [if_pos hve]
          exact ⟨by trivial, _, _, rfl⟩
        · rw [if_neg hve, if_pos hcr]
          exact ⟨by trivial, _, _, rfl⟩
  · intro db u sa ba pm cd notes g v e hv hne hcr hp
    rcases hS : service_process_payment
        (create_order db u v (calculate_order_totals v u sa ba) sa ba pm notes g).1
        (create_order db u v (calculate_order_totals v u sa ba) sa ba pm notes g).2
        pm cd g with ⟨dbx, rx⟩
    have hrx : rx = .error e := by rw [hS] at hp; exact hp
    subst hrx
    refine ⟨?_, ?_, rfl, rfl, ?_⟩
    · simp only [complete_checkout, hv]
      rw [if_neg hne, if_neg (by simp [hcr]), hS]
    · simp [create_order]
    · intro pid p hp2
      show stockOf (decrementStock v.valid_items db.products) pid = _
      rw [stockOf, decrementStock_eq_deltas, findProduct_applyStockDeltas _ _ _ _ hp2]
      simp [filter_map_snd v.valid_items (fun it => it.product.id)
        (fun it => -it.cart_item.quantity) pid, sum_map_neg, sub_eq_add_neg]

/-- Witness for C1: checking out an empty cart leaves the store unchanged
with a failure result, and a gateway exception after order creation leaves
exactly the store committed by create_order. -/
theorem C1_amended_rollback_scope_witness :
    ((complete_checkout dbEmptyCart sampleUser "a" "b" "upi" none none {}).1 =
        dbEmptyCart ∧
     ∃ e t, (complete_checkout dbEmptyCart sampleUser "a" "b" "upi" none none {}).2 =
        .failure e t) ∧
    complete_checkout sampleDB sampleUser "a" "b" "upi" none none
        { gatewayRaises := true } =
      ((create_order sampleDB sampleUser vSample
          (calculate_order_totals vSample sampleUser "a" "b") "a" "b" "upi" none
          { gatewayRaises := true }).1,
       .failure "Payment processing failed: gateway connection error" "checkout_error") :=
  ⟨C1_amended_rollback_scope.1 dbEmptyCart sampleUser "a" "b" "upi" none none {}
     (Or.inl rfl),
   (C1_amended_rollback_scope.2 sampleDB sampleUser "a" "b" "upi" none none
      { gatewayRaises := true } vSample
      "Payment processing failed: gateway connection error"
      (by with_unfolding_all rfl) (by simp [vSample]) rfl
      (by with_unfolding_all rfl)).1⟩

end ABFRL